import Mathlib

/-!
Verification of the Tube-Mentor-AI front-end against its specification.

The relevant client-side logic is shallowly embedded: React component state
becomes explicit state records, event handlers become pure state transformers
parameterised over the outcome of each remote call, and the JavaScript value
domain (string-or-undefined, truthiness) is modelled with `Option String`.
-/

namespace TubeMentor

/-! ## Data model (section 3 of the spec, src/frontend/src) -/

/-- One quiz question as delivered by the backend
(`{question, options[], correct_answer, explanation}`). -/
structure Question where
  question : String
  options : List String
  correct_answer : String
  expl : String
  deriving Repr, DecidableEq

/-- Transcript payload `{content, word_count, language}`. -/
structure Transcript where
  content : String
  word_count : Nat
  language : String
  deriving Repr, DecidableEq

/-- Summary payload `{summary_text, key_topics[]}`. -/
structure Summary where
  summary_text : String
  key_topics : List String
  deriving Repr, DecidableEq

/-- Quiz payload `{questions: [...]}`. -/
structure Quiz where
  questions : List Question
  deriving Repr, DecidableEq

/-- PDF generation result `{file_name}`. -/
structure PdfInfo where
  file_name : String
  deriving Repr, DecidableEq

/-- A recommendation entry `{video_id, title, channel_title, similarity_score}`.
The similarity score is only displayed, never compared, so its numeric type is
irrelevant to the claims; we carry it as a rational. -/
structure Recommendation where
  video_id : String
  title : String
  channel_title : String
  similarity_score : Rat
  deriving Repr, DecidableEq

/-- A toast notification as issued through `react-hot-toast`. -/
inductive Toast where
  | success (msg : String)
  | error (msg : String)
  deriving Repr, DecidableEq

/-! ## QuizCard (src/frontend/src/components/QuizCard.jsx)

The component keeps two plain objects keyed by question index:
`selected` (chosen option per question) and `revealed` (questions whose
answer has been checked).  `selected` is modelled as `Nat → Option String`
(JS property lookup yields `undefined` when absent); `revealed` as
`Nat → Bool` for the event semantics, and as the list of its keys where the
score fold iterates over `Object.keys(revealed)`. -/

structure QuizState where
  selected : Nat → Option String
  revealed : Nat → Bool

/-- The two user events QuizCard reacts to. -/
inductive QEvent where
  | select (q : Nat) (opt : String)
  | reveal (q : Nat)

/-- Handlers `handleSelect` / `handleReveal` of QuizCard.jsx as one step function:
selecting is ignored when the question is already revealed, otherwise it
overwrites that question's entry; revealing sets the flag. -/
def qstep (s : QuizState) : QEvent → QuizState
  | .select q opt =>
    if s.revealed q then s
    else { s with selected := fun i => if i = q then some opt else s.selected i }
  | .reveal q =>
    { s with revealed := fun i => if i = q then true else s.revealed i }

/-- Run a sequence of quiz events from a state. -/
def qrun (s : QuizState) (es : List QEvent) : QuizState :=
  es.foldl qstep s

/-- The `score` reduce of QuizCard.jsx: fold over the keys of `revealed`,
adding one whenever `selected[qIdx] === questions[qIdx]?.correct_answer`
(JS strict equality on string-or-undefined is equality of `Option String`). -/
def score (questions : List Question) (selected : Nat → Option String)
    (revealedKeys : List Nat) : Nat :=
  revealedKeys.foldl
    (fun acc q =>
      if selected q = (questions.get? q).map Question.correct_answer then acc + 1
      else acc) 0

/-- Modelled from the spec's words, for comparison with `score`: the count of
revealed questions whose stored selection equals that question's correct
answer. -/
def scoreSpec (questions : List Question) (selected : Nat → Option String)
    (revealedKeys : List Nat) : Nat :=
  revealedKeys.countP fun q =>
    match questions.get? q with
    | some qq => selected q = some qq.correct_answer
    | none => false

lemma score_foldl_acc (questions : List Question) (selected : Nat → Option String) :
    ∀ (l : List Nat) (acc : Nat),
      l.foldl
        (fun acc q =>
          if selected q = (questions.get? q).map Question.correct_answer then acc + 1
          else acc) acc
      = acc + l.countP
          (fun q =>
            decide (selected q = (questions.get? q).map Question.correct_answer)) := by
  intro l
  induction l with
  | nil => intro acc; simp
  | cons q rest ih =>
    intro acc
    rw [List.foldl_cons, ih, List.countP_cons]
    by_cases hq : selected q = (questions.get? q).map Question.correct_answer
    · simp only [List.get?_eq_getElem?] at hq
      simp [hq]
      omega
    · simp only [List.get?_eq_getElem?] at hq
      simp [hq]

lemma score_eq_countP (questions : List Question) (selected : Nat → Option String)
    (revealedKeys : List Nat) :
    score questions selected revealedKeys
      = revealedKeys.countP
          (fun q =>
            decide (selected q = (questions.get? q).map Question.correct_answer)) := by
  unfold score
  rw [score_foldl_acc]
  exact Nat.zero_add _

lemma qstep_revealed_mono (s : QuizState) (e : QEvent) (q : Nat)
    (h : s.revealed q = true) : (qstep s e).revealed q = true := by
  cases e with
  | select q' opt =>
    by_cases hq' : s.revealed q' <;> simp [qstep, hq', h]
  | reveal q' =>
    by_cases hq : q = q' <;> simp [qstep, hq, h]

lemma qrun_selected_frozen (q : Nat) :
    ∀ (es : List QEvent) (s : QuizState), s.revealed q = true →
      (qrun s es).selected q = s.selected q := by
  intro es
  induction es with
  | nil =>
    intro s _
    rfl
  | cons e rest ih =>
    intro s h
    have hrev := qstep_revealed_mono s e q h
    have hsel : (qstep s e).selected q = s.selected q := by
      cases e with
      | select q' opt =>
        by_cases hq' : s.revealed q'
        · simp [qstep, hq']
        · have hne : q ≠ q' := by
            intro hqq
            rw [hqq] at h
            exact hq' h
          simp [qstep, hq', hne]
      | reveal q' => rfl
    have : qrun s (e :: rest) = qrun (qstep s e) rest := rfl
    rw [this, ih (qstep s e) hrev, hsel]

/-- Concrete three-question quiz used to witness the quiz theorems. -/
def quizQsW : List Question :=
  [⟨"q1", ["a", "b"], "a", "e1"⟩,
   ⟨"q2", ["c", "d"], "d", "e2"⟩,
   ⟨"q3", ["x", "y"], "y", "e3"⟩]

/-- Concrete selection map used to witness the quiz theorems. -/
def quizSelW : Nat → Option String :=
  fun i => if i = 0 then some "a" else if i = 1 then some "c" else none

/-- C1: for every quiz state whose revealed indices are indices of actual
questions, the computed score equals the number of revealed questions whose
stored selection equals that question's correct answer, and changing the
selection of an unrevealed question never changes the score. -/
theorem quiz_score_counts_revealed_correct
    (questions : List Question) (selected : Nat → Option String)
    (revealedKeys : List Nat)
    (h : ∀ q ∈ revealedKeys, q < questions.length) :
    score questions selected revealedKeys = scoreSpec questions selected revealedKeys
    ∧ ∀ q o, q ∉ revealedKeys →
        score questions (fun i => if i = q then o else selected i) revealedKeys
          = score questions selected revealedKeys := by
  constructor
  · rw [score_eq_countP]
    unfold scoreSpec
    apply List.countP_congr
    intro q hq
    have hlt := h q hq
    have hget : questions.get? q = some (questions.get ⟨q, hlt⟩) := by
      simp [List.get?_eq_getElem?, List.getElem?_eq_getElem hlt]
    rw [hget]
    simp
  · intro q o hq
    rw [score_eq_countP, score_eq_countP]
    apply List.countP_congr
    intro q' hq'
    have hne : q' ≠ q := fun hqq => hq (hqq ▸ hq')
    simp [hne]

/-- Witness for C1 at a concrete quiz state: questions 0 and 1 revealed,
question 0 answered correctly, question 1 answered incorrectly; re-selecting
the unrevealed question 2 leaves the score unchanged. -/
theorem quiz_score_counts_revealed_correct_witness :
    score quizQsW quizSelW [0, 1] = scoreSpec quizQsW quizSelW [0, 1]
    ∧ score quizQsW (fun i => if i = 2 then some "y" else quizSelW i) [0, 1]
        = score quizQsW quizSelW [0, 1] := by
  have h := quiz_score_counts_revealed_correct quizQsW quizSelW [0, 1] (by decide)
  exact ⟨h.1, h.2 2 (some "y") (by decide)⟩

/-- C2: selecting an option on an unrevealed question q updates only q's
selection, leaves every reveal flag unchanged, and is idempotent; once q is
revealed, no subsequent event sequence ever changes q's stored selection. -/
theorem quiz_select_reveal_protocol (s : QuizState) (q : Nat) (o : String) :
    (s.revealed q = false →
      ((qstep s (.select q o)).selected q = some o
        ∧ (∀ j, j ≠ q → (qstep s (.select q o)).selected j = s.selected j)
        ∧ (∀ j, (qstep s (.select q o)).revealed j = s.revealed j)
        ∧ qstep (qstep s (.select q o)) (.select q o) = qstep s (.select q o)))
    ∧ (s.revealed q = true →
        ∀ es, (qrun s es).selected q = s.selected q) := by
  constructor
  · intro h
    refine ⟨?_, ?_, ?_, ?_⟩
    · simp [qstep, h]
    · intro j hj
      simp [qstep, h, hj]
    · intro j
      simp [qstep, h]
    · have h2 : (qstep s (.select q o)).revealed q = false := by
        simp [qstep, h]
      simp only [qstep, h, Bool.false_eq_true, if_false, h2]
      congr 1
      funext i
      by_cases hi : i = q <;> simp [hi]
  · intro h es
    exact qrun_selected_frozen q es s h

/-- Witness for C2: a fresh state (nothing revealed) for the select clauses,
and a state with question 0 revealed for the freeze clause, run against a
concrete event sequence that tries to re-select question 0. -/
theorem quiz_select_reveal_protocol_witness :
    ((qstep ⟨fun _ => none, fun _ => false⟩ (.select 0 "b")).selected 0 = some "b"
      ∧ (qstep ⟨fun _ => none, fun _ => false⟩ (.select 0 "b")).selected 1 = none
      ∧ (qstep ⟨fun _ => none, fun _ => false⟩ (.select 0 "b")).revealed 0 = false
      ∧ qstep (qstep ⟨fun _ => none, fun _ => false⟩ (.select 0 "b")) (.select 0 "b")
          = qstep ⟨fun _ => none, fun _ => false⟩ (.select 0 "b"))
    ∧ (qrun ⟨fun i => if i = 0 then some "a" else none, fun i => i == 0⟩
        [QEvent.select 0 "c", QEvent.reveal 1, QEvent.select 0 "d"]).selected 0
        = some "a" := by
  have h0 := (quiz_select_reveal_protocol ⟨fun _ => none, fun _ => false⟩ 0 "b").1 rfl
  have h1 := (quiz_select_reveal_protocol
    ⟨fun i => if i = 0 then some "a" else none, fun i => i == 0⟩ 0 "b").2 rfl
    [QEvent.select 0 "c", QEvent.reveal 1, QEvent.select 0 "d"]
  exact ⟨⟨h0.1, h0.2.1 1 (by decide), h0.2.2.1 0, h0.2.2.2⟩, h1⟩

/-! ## VideoPage controller (src/unnamed/part_002)

Each handler becomes a pure transformer of the page state, parameterised by
the outcome of the remote calls it awaits.  A failed call carries the
optional `err.response?.data?.detail` string used for the toast message. -/

/-- Body of a similar-videos response; the `recommendations` field may be
absent (`data.recommendations?` in the source). -/
structure SimilarBody where
  recommendations : Option (List Recommendation)
  deriving Repr

/-- The `useState` slots of the VideoPage component. -/
structure VideoPageState where
  activeTab : String
  transcript : Option Transcript
  summary : Option Summary
  quiz : Option Quiz
  pdfInfo : Option PdfInfo
  recommendations : List Recommendation
  loadingRecommendations : Bool
  loadingTranscript : Bool
  loadingSummary : Bool
  loadingQuiz : Bool
  loadingPDF : Bool
  deriving Repr

/-- Embedding of `data.recommendations?.filter(rec => rec.video_id !== videoId) || []`. -/
def filterRecs (videoId : String) (recs : Option (List Recommendation)) :
    List Recommendation :=
  match recs with
  | none => []
  | some l => l.filter (fun r => r.video_id != videoId)

/-- Handler `fetchRecommendationsOnly`: fetch similar videos without indexing; on any
failure the list is reset to empty; the loading flag ends cleared. -/
def fetchRecommendationsOnly (videoId : String) (s : VideoPageState)
    (simResp : Except String SimilarBody) : VideoPageState :=
  match simResp with
  | .ok data =>
    { s with recommendations := filterRecs videoId data.recommendations,
             loadingRecommendations := false }
  | .error _ =>
    { s with recommendations := [], loadingRecommendations := false }

/-- Handler `handleIndexAndFetchRecommendations`: index the video, then fetch similar
videos; a failure of either call inside the shared try resets the list. -/
def handleIndexAndFetchRecommendations (videoId : String) (s : VideoPageState)
    (indexResp : Except String Unit) (simResp : Except String SimilarBody) :
    VideoPageState :=
  match indexResp with
  | .error _ =>
    { s with recommendations := [], loadingRecommendations := false }
  | .ok _ =>
    match simResp with
    | .error _ =>
      { s with recommendations := [], loadingRecommendations := false }
    | .ok data =>
      { s with recommendations := filterRecs videoId data.recommendations,
               loadingRecommendations := false }

/-- Handler `handleGenerateSummary`: guard on the transcript, switch to the summary
tab, store the summary on success and fire the index-and-refetch follow-up;
the returned toast is the one issued by this handler. -/
def handleGenerateSummary (videoId : String) (s : VideoPageState)
    (sumResp : Except (Option String) Summary)
    (indexResp : Except String Unit) (simResp : Except String SimilarBody) :
    VideoPageState × Toast :=
  if s.transcript.isNone then (s, .error "Fetch transcript first!")
  else
    let s1 := { s with loadingSummary := true, activeTab := "summary" }
    match sumResp with
    | .ok data =>
      let s2 := handleIndexAndFetchRecommendations videoId
        { s1 with summary := some data } indexResp simResp
      ({ s2 with loadingSummary := false }, .success "Summary generated!")
    | .error detail =>
      ({ s1 with loadingSummary := false },
        .error (detail.getD "Summary generation failed."))

/-- The request body built by `generatePDF` of the API client:
`{video_id, include_summary, include_quiz}`. -/
structure PdfRequest where
  video_id : String
  include_summary : Bool
  include_quiz : Bool
  deriving Repr, DecidableEq

/-- Handler `handleGeneratePDF`: with neither summary nor quiz present, short-circuit
with an error toast and no request; otherwise dispatch
`generatePDF(videoId, !!summary, !!quiz)` and store the result on success.
The middle component is the request that was dispatched, if any. -/
def handleGeneratePDF (videoId : String) (s : VideoPageState)
    (resp : Except (Option String) PdfInfo) :
    VideoPageState × Option PdfRequest × Toast :=
  if s.summary.isNone && s.quiz.isNone then
    (s, none, .error "Generate a summary or quiz first!")
  else
    let req : PdfRequest := ⟨videoId, s.summary.isSome, s.quiz.isSome⟩
    match resp with
    | .ok data =>
      ({ s with pdfInfo := some data, loadingPDF := false }, some req,
        .success "PDF generated!")
    | .error detail =>
      ({ s with loadingPDF := false }, some req,
        .error (detail.getD "PDF generation failed."))

lemma all_filterRecs (videoId : String) (recs : Option (List Recommendation)) :
    (filterRecs videoId recs).all (fun r => r.video_id != videoId) = true := by
  cases recs with
  | none => rfl
  | some l =>
    rw [List.all_eq_true]
    intro r hr
    simp only [filterRecs] at hr
    exact (List.mem_filter.mp hr).2

/-- C3: after either recommendation fetch — the initial fetch without
indexing or the index-then-refetch after summary — the stored recommendation
list contains no entry whose video_id equals the current video id, whatever
the backend returned. -/
theorem recommendations_exclude_current_video (videoId : String)
    (s t : VideoPageState) (indexResp : Except String Unit)
    (simResp simResp' : Except String SimilarBody) :
    (fetchRecommendationsOnly videoId s simResp).recommendations.all
        (fun r => r.video_id != videoId) = true
    ∧ (handleIndexAndFetchRecommendations videoId t indexResp
        simResp').recommendations.all (fun r => r.video_id != videoId) = true := by
  constructor
  · cases simResp with
    | ok data => simpa [fetchRecommendationsOnly] using all_filterRecs videoId data.recommendations
    | error _ => rfl
  · cases indexResp with
    | error _ => rfl
    | ok _ =>
      cases simResp' with
      | ok data =>
        simpa [handleIndexAndFetchRecommendations] using
          all_filterRecs videoId data.recommendations
      | error _ => rfl

/-- An empty VideoPage state, as on mount. -/
def vpsEmpty : VideoPageState :=
  ⟨"transcript", none, none, none, none, [], false, false, false, false, false⟩

/-- The empty page state with a fetched transcript. -/
def vpsWithTranscript : VideoPageState :=
  { vpsEmpty with transcript := some ⟨"hello world", 2, "en"⟩ }

/-- The empty page state with a stored summary. -/
def vpsWithSummary : VideoPageState :=
  { vpsEmpty with summary := some ⟨"sum text", ["topic1"]⟩ }

/-- C4: with neither summary nor quiz present, generate-PDF leaves the page
state untouched, dispatches no request, and surfaces only an error toast. -/
theorem generate_pdf_short_circuit (videoId : String) (s : VideoPageState)
    (resp : Except (Option String) PdfInfo)
    (hs : s.summary = none) (hq : s.quiz = none) :
    (handleGeneratePDF videoId s resp).1 = s
    ∧ (handleGeneratePDF videoId s resp).2.1 = none
    ∧ ∃ m, (handleGeneratePDF videoId s resp).2.2 = Toast.error m := by
  unfold handleGeneratePDF
  simp [hs, hq]

/-- Witness for C4 at the empty page state, with a response that would have
stored a PDF had the request been dispatched. -/
theorem generate_pdf_short_circuit_witness :
    (handleGeneratePDF "vid1" vpsEmpty (.ok ⟨"f.pdf"⟩)).1 = vpsEmpty
    ∧ (handleGeneratePDF "vid1" vpsEmpty (.ok ⟨"f.pdf"⟩)).2.1 = none
    ∧ ∃ m, (handleGeneratePDF "vid1" vpsEmpty (.ok ⟨"f.pdf"⟩)).2.2 = Toast.error m :=
  generate_pdf_short_circuit "vid1" vpsEmpty (.ok ⟨"f.pdf"⟩) rfl rfl

/-- C10: whenever at least one of summary or quiz is present, generate-PDF
dispatches exactly one request whose include_summary and include_quiz flags
mirror the presence of the summary and the quiz at dispatch time. -/
theorem generate_pdf_request_flags (videoId : String) (s : VideoPageState)
    (resp : Except (Option String) PdfInfo)
    (h : s.summary.isSome ∨ s.quiz.isSome) :
    ∃ req, (handleGeneratePDF videoId s resp).2.1 = some req
      ∧ req.video_id = videoId
      ∧ req.include_summary = s.summary.isSome
      ∧ req.include_quiz = s.quiz.isSome := by
  have hcond : (s.summary.isNone && s.quiz.isNone) = false := by
    rcases h with h | h <;> cases hs : s.summary <;> cases hqz : s.quiz <;>
      simp_all
  unfold handleGeneratePDF
  rw [hcond]
  cases resp with
  | ok data => exact ⟨⟨videoId, s.summary.isSome, s.quiz.isSome⟩, rfl, rfl, rfl, rfl⟩
  | error detail => exact ⟨⟨videoId, s.summary.isSome, s.quiz.isSome⟩, rfl, rfl, rfl, rfl⟩

/-- Witness for C10: a page state holding a summary but no quiz. -/
theorem generate_pdf_request_flags_witness :
    ∃ req, (handleGeneratePDF "vid1" vpsWithSummary (.ok ⟨"f.pdf"⟩)).2.1 = some req
      ∧ req.video_id = "vid1"
      ∧ req.include_summary = vpsWithSummary.summary.isSome
      ∧ req.include_quiz = vpsWithSummary.quiz.isSome :=
  generate_pdf_request_flags "vid1" vpsWithSummary (.ok ⟨"f.pdf"⟩) (Or.inl rfl)

/-- C6: once the summary call succeeds, the index-and-refetch follow-up can
end any way at all — the stored summary is the freshly generated one and the
transcript, quiz and pdf state are untouched; only the recommendations state
varies with the follow-up's outcome. -/
theorem summary_follow_up_preserves_content (videoId : String)
    (s : VideoPageState) (d : Summary) (indexResp : Except String Unit)
    (simResp : Except String SimilarBody)
    (h : s.transcript.isNone = false) :
    (handleGenerateSummary videoId s (.ok d) indexResp simResp).1.summary = some d
    ∧ (handleGenerateSummary videoId s (.ok d) indexResp simResp).1.transcript
        = s.transcript
    ∧ (handleGenerateSummary videoId s (.ok d) indexResp simResp).1.quiz = s.quiz
    ∧ (handleGenerateSummary videoId s (.ok d) indexResp simResp).1.pdfInfo
        = s.pdfInfo := by
  unfold handleGenerateSummary handleIndexAndFetchRecommendations
  cases indexResp with
  | error e => simp [h]
  | ok u =>
    cases simResp with
    | error e => simp [h]
    | ok data => simp [h]

/-- Witness for C6 with a failing indexing call: the summary survives. -/
theorem summary_follow_up_preserves_content_witness :
    (handleGenerateSummary "vid1" vpsWithTranscript (.ok ⟨"sum text", []⟩)
        (.error "index down") (.error "sim down")).1.summary = some ⟨"sum text", []⟩
    ∧ (handleGenerateSummary "vid1" vpsWithTranscript (.ok ⟨"sum text", []⟩)
        (.error "index down") (.error "sim down")).1.transcript
        = vpsWithTranscript.transcript
    ∧ (handleGenerateSummary "vid1" vpsWithTranscript (.ok ⟨"sum text", []⟩)
        (.error "index down") (.error "sim down")).1.quiz = vpsWithTranscript.quiz
    ∧ (handleGenerateSummary "vid1" vpsWithTranscript (.ok ⟨"sum text", []⟩)
        (.error "index down") (.error "sim down")).1.pdfInfo
        = vpsWithTranscript.pdfInfo :=
  summary_follow_up_preserves_content "vid1" vpsWithTranscript ⟨"sum text", []⟩
    (.error "index down") (.error "sim down") rfl

/-! ## ContentTools panel (src/frontend/src/components/ContentTools.jsx)

Only the slice of state touched by the voice and video handlers is carried:
the active-tab indicator, the name-keyed loading map, and the stored voice
and video results. -/

/-- Voice generation response `{success, filename, duration_seconds, error?}`. -/
structure VoiceResponse where
  success : Bool
  filename : String
  duration_seconds : Nat
  error : Option String
  deriving Repr, DecidableEq

/-- Video generation response `{success, filename, duration_seconds}`; the
raw JSON object may also carry an `error` field, which the handler never
reads. -/
structure VideoResponse where
  success : Bool
  filename : String
  duration_seconds : Nat
  error : Option String
  deriving Repr, DecidableEq

/-- The ContentTools state slice relevant to voice and video generation. -/
structure ContentToolsState where
  activeTab : Option String
  loading : String → Bool
  voice : Option VoiceResponse
  video : Option VideoResponse

/-- Helper `setLoadingState`: update one key of the name-keyed loading map. -/
def setLoadingState (loading : String → Bool) (key : String) (v : Bool) :
    String → Bool :=
  fun k => if k = key then v else loading k

/-- Handler `handleGenerateVoice`: gated on the summary; a 2xx body with
`success:true` is stored, `success:false` keeps the previous result and
surfaces `data.error || 'Voice generation failed'`. -/
def handleGenerateVoice (hasSummary : Bool) (s : ContentToolsState)
    (resp : Except (Option String) VoiceResponse) : ContentToolsState × Toast :=
  if !hasSummary then (s, .error "Generate summary first!")
  else
    let s1 := { s with loading := setLoadingState s.loading "voice" true,
                       activeTab := some "voice" }
    match resp with
    | .ok data =>
      if data.success then
        ({ s1 with voice := some data,
                   loading := setLoadingState s1.loading "voice" false },
          .success "Voice narration generated!")
      else
        ({ s1 with loading := setLoadingState s1.loading "voice" false },
          .error (data.error.getD "Voice generation failed"))
    | .error detail =>
      ({ s1 with loading := setLoadingState s1.loading "voice" false },
        .error (detail.getD "Failed to generate voice"))

/-- Handler `handleGenerateVideo`: gated on the summary; a 2xx body with
`success:true` is stored, `success:false` keeps the previous result and
surfaces the fixed message 'Video generation failed'. -/
def handleGenerateVideo (hasSummary : Bool) (s : ContentToolsState)
    (resp : Except (Option String) VideoResponse) : ContentToolsState × Toast :=
  if !hasSummary then (s, .error "Generate summary first!")
  else
    let s1 := { s with loading := setLoadingState s.loading "video" true,
                       activeTab := some "video" }
    match resp with
    | .ok data =>
      if data.success then
        ({ s1 with video := some data,
                   loading := setLoadingState s1.loading "video" false },
          .success "Video generated!")
      else
        ({ s1 with loading := setLoadingState s1.loading "video" false },
          .error "Video generation failed")
    | .error detail =>
      ({ s1 with loading := setLoadingState s1.loading "video" false },
        .error (detail.getD "Failed to generate video"))

/-- An idle ContentTools state. -/
def ctsIdle : ContentToolsState := ⟨none, fun _ => false, none, none⟩

/-- C5 counterexample: a 2xx video response with `success:false` that carries
its own error message still surfaces the fixed generic toast, so the claim
that the notification carries the response's own error message is false for
video generation. -/
theorem voice_video_domain_failure_counterexample :
    (handleGenerateVideo true ctsIdle
        (.ok ⟨false, "", 0, some "GPU unavailable"⟩)).2
      = Toast.error "Video generation failed"
    ∧ (handleGenerateVideo true ctsIdle
        (.ok ⟨false, "", 0, some "GPU unavailable"⟩)).2
      ≠ Toast.error "GPU unavailable" := by
  constructor
  · rfl
  · decide

/-- C5 (amended): a transport-successful response with `success:false` never
updates the stored voice/video result; the voice handler surfaces the
response's own error message (with a generic fallback), while the video
handler surfaces the fixed message 'Video generation failed'. -/
theorem voice_video_domain_failure (s t : ContentToolsState)
    (rv : VoiceResponse) (rb : VideoResponse)
    (hv : rv.success = false) (hb : rb.success = false) :
    ((handleGenerateVoice true s (.ok rv)).1.voice = s.voice
      ∧ (handleGenerateVoice true s (.ok rv)).2
          = Toast.error (rv.error.getD "Voice generation failed"))
    ∧ ((handleGenerateVideo true t (.ok rb)).1.video = t.video
      ∧ (handleGenerateVideo true t (.ok rb)).2
          = Toast.error "Video generation failed") := by
  constructor
  · constructor
    · simp [handleGenerateVoice, hv]
    · simp [handleGenerateVoice, hv]
  · constructor
    · simp [handleGenerateVideo, hb]
    · simp [handleGenerateVideo, hb]

/-- Witness for C5 (amended) at concrete failing responses. -/
theorem voice_video_domain_failure_witness :
    ((handleGenerateVoice true ctsIdle
        (.ok ⟨false, "", 0, some "quota exceeded"⟩)).1.voice = none
      ∧ (handleGenerateVoice true ctsIdle
          (.ok ⟨false, "", 0, some "quota exceeded"⟩)).2
          = Toast.error "quota exceeded")
    ∧ ((handleGenerateVideo true ctsIdle
        (.ok ⟨false, "", 0, none⟩)).1.video = none
      ∧ (handleGenerateVideo true ctsIdle
          (.ok ⟨false, "", 0, none⟩)).2
          = Toast.error "Video generation failed") :=
  voice_video_domain_failure ctsIdle ctsIdle
    ⟨false, "", 0, some "quota exceeded"⟩ ⟨false, "", 0, none⟩ rfl rfl

/-! ## OAuth callback view (src/unnamed/part_003)

`handleCallback` parses the URL fragment with URLSearchParams; a parameter is
`none` when absent and `some v` when present with value `v`.  JS truthiness
of `params.get(..)` treats both `null` and the empty string as false. -/

/-- Terminal UI states of the callback view. -/
inductive CbStatus where
  | processing
  | success
  | cberror
  deriving Repr, DecidableEq

/-- Result of running the callback handler: final status, displayed message,
and whether `loginWithGoogle` (the token exchange) was invoked. -/
structure CbResult where
  status : CbStatus
  message : String
  loginWithGoogleCalled : Bool
  deriving Repr, DecidableEq

/-- JS truthiness of a `URLSearchParams.get` result: `null` and `""` are
falsy, every other string is truthy. -/
def truthyParam : Option String → Bool
  | none => false
  | some s => !s.isEmpty

/-- Handler `handleCallback` of the AuthCallback view. -/
def handleCallback (accessToken errParam : Option String)
    (loginResp : Except (Option String) Unit) : CbResult :=
  if truthyParam errParam then
    ⟨.cberror, "Authentication was cancelled or failed", false⟩
  else if !truthyParam accessToken then
    ⟨.cberror, "No access token received", false⟩
  else
    match loginResp with
    | .ok _ => ⟨.success, "", true⟩
    | .error m => ⟨.cberror, m.getD "Failed to authenticate with Google", true⟩

/-- C7 counterexample: a fragment carrying an error parameter with an empty
value (`#access_token=tok&error=`) is treated as having no error — the token
exchange runs and the view does not end in the error state, so the claim as
stated (any error parameter short-circuits) is false. -/
theorem oauth_error_param_counterexample :
    (handleCallback (some "tok") (some "") (.ok ())).loginWithGoogleCalled = true
    ∧ (handleCallback (some "tok") (some "") (.ok ())).status ≠ CbStatus.cberror := by
  decide

/-- C7 (amended): for every callback whose fragment carries an error
parameter with a non-empty value, the handler ends in the terminal error
state and never invokes the token exchange, regardless of any access token
in the fragment and of how the exchange would have answered. -/
theorem oauth_error_param_short_circuit (accessToken errParam : Option String)
    (loginResp : Except (Option String) Unit)
    (h : truthyParam errParam = true) :
    (handleCallback accessToken errParam loginResp).status = CbStatus.cberror
    ∧ (handleCallback accessToken errParam loginResp).loginWithGoogleCalled
        = false := by
  simp [handleCallback, h]

/-- Witness for C7 (amended): `#error=access_denied` with an access token
also present and an exchange that would have succeeded. -/
theorem oauth_error_param_short_circuit_witness :
    (handleCallback (some "tok") (some "access_denied") (.ok ())).status
        = CbStatus.cberror
    ∧ (handleCallback (some "tok") (some "access_denied")
        (.ok ())).loginWithGoogleCalled = false :=
  oauth_error_param_short_circuit (some "tok") (some "access_denied") (.ok ())
    (by decide)

/-! ## Auth session store (src/frontend/src/context/AuthContext.jsx) -/

/-- A user profile as returned by the auth endpoints. -/
structure UserProfile where
  email : String
  full_name : String
  deriving Repr, DecidableEq

/-- In-memory session slice of the AuthProvider: `user`, `token`, `loading`. -/
structure AuthSession where
  user : Option UserProfile
  token : Option String
  loading : Bool
  deriving Repr, DecidableEq

/-- Operation `logout`: remove the persisted token, clear the in-memory token and
user.  Returns the new persisted storage, the new session, and whether any
HTTP request was issued (none is). -/
def logout (_storage : Option String) (s : AuthSession) :
    Option String × AuthSession × Bool :=
  (none, { s with token := none, user := none }, false)

/-- Possible outcomes of the `fetchUser` call. -/
inductive FetchUserOutcome where
  | ok (u : UserProfile)
  | httpError
  | networkError
  deriving Repr, DecidableEq

/-- Result of the AuthProvider mount sequence. -/
structure AuthInitResult where
  session : AuthSession
  storage : Option String
  fetchUserCalled : Bool
  deriving Repr, DecidableEq

/-- The AuthProvider mount effect: the token is rehydrated from storage; if
present, `fetchUser` validates it (non-2xx triggers the logout side effect,
a thrown network error is only logged); with no token, loading is simply
cleared and no request is made. -/
def initAuth (storage : Option String) (outcome : FetchUserOutcome) :
    AuthInitResult :=
  match storage with
  | none => ⟨⟨none, none, false⟩, none, false⟩
  | some tok =>
    match outcome with
    | .ok u => ⟨⟨some u, some tok, false⟩, some tok, true⟩
    | .httpError => ⟨⟨none, none, false⟩, none, true⟩
    | .networkError => ⟨⟨none, some tok, false⟩, some tok, true⟩

/-- C8: logout synchronously clears the persisted token and the in-memory
token and user without any server call, and a subsequent controller
initialization from the resulting storage performs no fetch-current-user
request and ends unauthenticated with loading cleared. -/
theorem logout_then_init_unauthenticated (storage : Option String)
    (s : AuthSession) (outcome : FetchUserOutcome) :
    (logout storage s).1 = none
    ∧ (logout storage s).2.1.token = none
    ∧ (logout storage s).2.1.user = none
    ∧ (logout storage s).2.2 = false
    ∧ (initAuth (logout storage s).1 outcome).fetchUserCalled = false
    ∧ (initAuth (logout storage s).1 outcome).session.user = none
    ∧ (initAuth (logout storage s).1 outcome).session.loading = false := by
  simp [logout, initAuth]

/-! ## API client (src/frontend/src/services/api.js, duplicate copy in
src/unnamed/part_005) -/

/-- An HTTP request as issued by the axios wrapper (method and URL relative
to the `/api` base). -/
structure HttpRequest where
  method : String
  url : String
  deriving Repr, DecidableEq

/-- Request builder `getSimilarVideos` of src/frontend/src/services/api.js:
``API.get(`/recommendations/similar/${videoId}?k=${limit}`)``. -/
def getSimilarVideos (videoId : String) (limit : Nat) : HttpRequest :=
  ⟨"GET", "/recommendations/similar/" ++ videoId ++ "?k=" ++ toString limit⟩

/-- Request builder `getSimilarVideos` of the duplicate API layer src/unnamed/part_005:
``API.get(`/recommendations/similar/${videoId}?limit=${limit}`)``. -/
def getSimilarVideosDup (videoId : String) (limit : Nat) : HttpRequest :=
  ⟨"GET", "/recommendations/similar/" ++ videoId ++ "?limit=" ++ toString limit⟩

/-- C9 counterexample: the repository's duplicate API layer builds the
similar-videos URL with the query parameter named `limit`, not `k`, so the
claim is false of that copy of `getSimilarVideos`. -/
theorem similar_videos_url_counterexample :
    (getSimilarVideosDup "abc" 5).url ≠ "/recommendations/similar/abc?k=5" := by
  decide

/-- C9 (amended): the API client used by the app passes the result-count
limit as the query parameter `k`; the duplicate legacy copy passes it as
`limit`. -/
theorem similar_videos_url (videoId : String) (n : Nat) :
    (getSimilarVideos videoId n).method = "GET"
    ∧ (getSimilarVideos videoId n).url
        = "/recommendations/similar/" ++ videoId ++ "?k=" ++ toString n
    ∧ (getSimilarVideosDup videoId n).url
        = "/recommendations/similar/" ++ videoId ++ "?limit=" ++ toString n :=
  ⟨rfl, rfl, rfl⟩

end TubeMentor
